import Mathlib

/-!
Shallow embedding of the rust-sidecar AMM math library
(src/rust-sidecar/src/dex/{uniswap_v2,uniswap_v3,curve,balancer}/math.rs).

Modelling conventions:
* Rust `U256` values are `Nat` together with explicit `≤ U256MAX` checks at
  every `checked_*` operation; `U512` intermediates likewise with `U512MAX`.
* `Result<T, MathError>` becomes `Except MathErr T`; the string payloads of
  the error variants are dropped, only the variant kind is kept (the taxonomy
  of spec §7).  A Rust arithmetic panic (plain `+`/`-` on `uint` types, which
  panic on overflow/underflow) is modelled by the extra kind `abortPanic`,
  so that a panicking execution is never confused with a normal return.
* `fee_bps` arguments come from the `BasisPoints` newtype (not under `src/`),
  whose constructor guards the value into `[0, 10000]`; here they are plain
  `Nat` arguments and theorems carry `fee ≤ 10000` hypotheses where needed.
* Loops (`for`, `while`) become structural recursion on an explicit fuel
  argument equal to the source iteration cap; `while` loops with a bound
  derived from the data get fuel strictly larger than the possible number of
  iterations, with the loop-exit value returned on exhaustion exactly as the
  source returns it after its cap.
-/

set_option maxRecDepth 20000

namespace Sidecar

/-- Largest value representable by the 256-bit unsigned integer type. -/
def U256MAX : Nat := 2 ^ 256 - 1

/-- Largest value representable by the 512-bit unsigned integer type. -/
def U512MAX : Nat := 2 ^ 512 - 1

/-- Largest value representable by `u128`. -/
def U128MAX : Nat := 2 ^ 128 - 1

/-- The error taxonomy of `MathError` (spec §7); payload strings dropped.
`abortPanic` additionally models a Rust arithmetic panic. -/
inductive MathErr where
  | invalidInput
  | overflow
  | underflow
  | divisionByZero
  | nonConvergence
  | abortPanic
  deriving DecidableEq, Repr

/-- `U256::checked_mul`. -/
def checkedMul256 (a b : Nat) : Option Nat :=
  if a * b ≤ U256MAX then some (a * b) else none

/-- `U256::checked_add`. -/
def checkedAdd256 (a b : Nat) : Option Nat :=
  if a + b ≤ U256MAX then some (a + b) else none

/-- `checked_sub` (width independent: `Nat` only underflows). -/
def checkedSub (a b : Nat) : Option Nat :=
  if b ≤ a then some (a - b) else none

/-- `checked_div`: fails only on a zero divisor. -/
def checkedDiv (a b : Nat) : Option Nat :=
  if b = 0 then none else some (a / b)

/-- `U512::checked_mul`. -/
def checkedMul512 (a b : Nat) : Option Nat :=
  if a * b ≤ U512MAX then some (a * b) else none

/-- `U512::checked_add`. -/
def checkedAdd512 (a b : Nat) : Option Nat :=
  if a + b ≤ U512MAX then some (a + b) else none

/-- `U256::saturating_add`. -/
def satAdd256 (a b : Nat) : Nat := min (a + b) U256MAX

/-- `U256::saturating_mul`. -/
def satMul256 (a b : Nat) : Nat := min (a * b) U256MAX

/-- `saturating_sub` (on `Nat` this is plain truncated subtraction). -/
def satSub (a b : Nat) : Nat := a - b

/-- `abs_diff`. -/
def natAbsDiff (a b : Nat) : Nat := if a ≥ b then a - b else b - a

/-- Lift an `Option` into `Except`, the `ok_or_else` idiom. -/
def chk {α : Type} (o : Option α) (e : MathErr) : Except MathErr α :=
  match o with
  | some a => .ok a
  | none => .error e

/-- `unwrap_or(0)` over a math result. -/
def okOr0 : Except MathErr Nat → Nat
  | .ok v => v
  | .error _ => 0

/-- `unwrap_or(dflt)` over a math result. -/
def okOrD (r : Except MathErr Nat) (dflt : Nat) : Nat :=
  match r with
  | .ok v => v
  | .error _ => dflt

@[simp] theorem chk_some {α : Type} (a : α) (e : MathErr) : chk (some a) e = .ok a := rfl

@[simp] theorem chk_none {α : Type} (e : MathErr) : chk (none : Option α) e = .error e := rfl

theorem chk_eq_ok {α : Type} {o : Option α} {e : MathErr} {a : α} :
    chk o e = .ok a ↔ o = some a := by
  cases o <;> simp [chk]

theorem checkedMul256_eq_some {a b c : Nat} :
    checkedMul256 a b = some c ↔ a * b ≤ U256MAX ∧ c = a * b := by
  unfold checkedMul256
  split <;> simp_all <;> omega

theorem checkedAdd256_eq_some {a b c : Nat} :
    checkedAdd256 a b = some c ↔ a + b ≤ U256MAX ∧ c = a + b := by
  unfold checkedAdd256
  split <;> simp_all <;> omega

theorem checkedSub_eq_some {a b c : Nat} :
    checkedSub a b = some c ↔ b ≤ a ∧ c = a - b := by
  unfold checkedSub
  split <;> simp_all <;> omega

theorem checkedDiv_eq_some {a b c : Nat} :
    checkedDiv a b = some c ↔ b ≠ 0 ∧ c = a / b := by
  unfold checkedDiv
  split <;> simp_all <;> omega

theorem checkedMul512_eq_some {a b c : Nat} :
    checkedMul512 a b = some c ↔ a * b ≤ U512MAX ∧ c = a * b := by
  unfold checkedMul512
  split <;> simp_all <;> omega

theorem checkedAdd512_eq_some {a b c : Nat} :
    checkedAdd512 a b = some c ↔ a + b ≤ U512MAX ∧ c = a + b := by
  unfold checkedAdd512
  split <;> simp_all <;> omega

/-! ## Uniswap V2 math (`src/dex/uniswap_v2/math.rs`) -/

namespace V2

/-- `calculate_v2_amount_out` (math.rs lines 23–97). -/
def calculate_v2_amount_out (amount_in reserve_in reserve_out fee_bps : Nat) :
    Except MathErr Nat :=
  if amount_in = 0 then .error .invalidInput
  else if reserve_in = 0 ∨ reserve_out = 0 then .error .invalidInput
  else
    let fee_multiplier := 10000 - fee_bps
    match checkedMul256 amount_in fee_multiplier with
    | none => .error .overflow
    | some amount_in_with_fee =>
      match checkedMul256 reserve_out amount_in_with_fee with
      | none => .error .overflow
      | some numerator =>
        match checkedMul256 reserve_in 10000 with
        | none => .error .overflow
        | some reserve_in_scaled =>
          match checkedAdd256 reserve_in_scaled amount_in_with_fee with
          | none => .error .overflow
          | some denominator =>
            if denominator = 0 then .error .divisionByZero
            else .ok (numerator / denominator)

/-- `calculate_v2_post_swap_state` (math.rs lines 286–312). -/
def calculate_v2_post_swap_state (amount_in reserve_in reserve_out fee_bps : Nat) :
    Except MathErr (Nat × Nat × Nat) :=
  match calculate_v2_amount_out amount_in reserve_in reserve_out fee_bps with
  | .error e => .error e
  | .ok amount_out =>
    match checkedAdd256 reserve_in amount_in with
    | none => .error .overflow
    | some new_reserve_in =>
      match checkedSub reserve_out amount_out with
      | none => .error .underflow
      | some new_reserve_out => .ok (new_reserve_in, new_reserve_out, amount_out)

/-- `calculate_v2_sandwich_profit` (math.rs lines 219–272). -/
def calculate_v2_sandwich_profit
    (frontrun_amount victim_amount reserve_in reserve_out fee_bps aave_fee_bps : Nat) :
    Except MathErr Nat :=
  match calculate_v2_post_swap_state frontrun_amount reserve_in reserve_out fee_bps with
  | .error e => .error e
  | .ok (reserve_in_post_frontrun, reserve_out_post_frontrun, frontrun_output) =>
    match calculate_v2_post_swap_state victim_amount
        reserve_in_post_frontrun reserve_out_post_frontrun fee_bps with
    | .error e => .error e
    | .ok (reserve_in_post_victim, reserve_out_post_victim, _victim_output) =>
      match calculate_v2_amount_out frontrun_output
          reserve_out_post_victim reserve_in_post_victim fee_bps with
      | .error e => .error e
      | .ok backrun_output =>
        match (checkedMul256 frontrun_amount aave_fee_bps).bind
            (fun v => checkedDiv v 10000) with
        | none => .error .overflow
        | some flash_loan_cost =>
          let total_cost := satAdd256 frontrun_amount flash_loan_cost
          if backrun_output ≥ total_cost then .ok (backrun_output - total_cost)
          else .ok 0

/-- Tolerance of the V2 golden-section optimiser: `(victim / 10000).max(1)`. -/
def v2OptTolerance (victim_amount : Nat) : Nat := max (victim_amount / 10000) 1

/-- Iteration cap of the V2 golden-section optimiser. -/
def v2OptMaxIters : Nat := 50

/-- The golden-section loop of `newton_raphson_sandwich_optimization`
(math.rs lines 415–468), fuel = remaining iterations; `profit` is
`calculate_v2_sandwich_profit` at the fixed pool arguments with
`unwrap_or(0)` applied. -/
def goldenLoop (profit : Nat → Nat) (tolerance : Nat) :
    Nat → Nat → Nat → Nat → Nat → Nat → Nat → Except MathErr Nat
  | 0, a, b, _, _, _, _ =>
      match checkedAdd256 a b with
      | none => .error .abortPanic
      | some s => .ok (s / 2)
  | fuel + 1, a, b, c, d, fc, fd =>
      if satSub b a < tolerance then
        match checkedAdd256 a b with
        | none => .error .abortPanic
        | some s => .ok (s / 2)
      else if fc < fd then
        -- maximum in [c, b]: a ← c, c ← d, fc ← fd, recompute d and fd
        match checkedSub b c with
        | none => .error .abortPanic
        | some new_diff =>
          let new_golden := satMul256 new_diff 618033988 / 1000000000
          match checkedSub b new_golden with
          | none => .error .abortPanic
          | some d' => goldenLoop profit tolerance fuel c b d d' fd (profit d')
      else
        -- maximum in [a, d]: b ← d, d ← c, fd ← fc, recompute c and fc
        match checkedSub d a with
        | none => .error .abortPanic
        | some new_diff =>
          let new_golden := satMul256 new_diff 618033988 / 1000000000
          match checkedAdd256 a new_golden with
          | none => .error .abortPanic
          | some c' => goldenLoop profit tolerance fuel a d c' c (profit c') fc

/-- `newton_raphson_sandwich_optimization` (math.rs lines 362–469):
golden-section search over `[0, victim_amount]`. -/
def newton_raphson_sandwich_optimization
    (victim_amount reserve_in reserve_out fee_bps aave_fee_bps : Nat) :
    Except MathErr Nat :=
  let a := 0
  let b := victim_amount
  let tolerance := v2OptTolerance victim_amount
  let diff := b - a
  let golden_diff := satMul256 diff 618033988 / 1000000000
  match checkedAdd256 a golden_diff with
  | none => .error .abortPanic
  | some c0 =>
    match checkedSub b golden_diff with
    | none => .error .abortPanic
    | some d0 =>
      let c := if c0 > d0 then d0 else c0
      let d := if c0 > d0 then c0 else d0
      let profit := fun x => okOr0
          (calculate_v2_sandwich_profit x victim_amount reserve_in reserve_out
            fee_bps aave_fee_bps)
      goldenLoop profit tolerance v2OptMaxIters a b c d (profit c) (profit d)

end V2

/-! ## Curve StableSwap math (`src/dex/curve/math.rs`) -/

namespace Curve

/-- Loop body of `pow_u256` (math.rs lines 603–699): exponentiation by
squaring with explicit overflow pre-checks; fuel strictly exceeds the at
most 64 halvings of a `usize` exponent. -/
def powLoop : Nat → Nat → Nat → Nat → Except MathErr Nat
  | 0, _, result, _ => .ok result
  | fuel + 1, exp, result, base =>
      if exp = 0 then .ok result
      else do
        let result' ←
          if exp % 2 = 1 then
            if result ≠ 0 then
              match checkedDiv U256MAX result with
              | some max_base =>
                  if base > max_base then throw .overflow
                  else chk (checkedMul256 result base) .overflow
              | none => throw .overflow
            else chk (checkedMul256 result base) .overflow
          else pure result
        let base' ←
          if exp > 1 then
            match checkedDiv U256MAX base with
            | some max_base =>
                if base > max_base then throw .overflow
                else chk (checkedMul256 base base) .overflow
            | none => chk (checkedMul256 base base) .overflow
          else pure base
        powLoop fuel (exp / 2) result' base'

/-- `pow_u256` (math.rs lines 603–699). -/
def pow_u256 (base : Nat) (exp : Nat) : Except MathErr Nat :=
  if exp = 0 then .ok 1
  else if exp = 1 then .ok base
  else do
    if base > 1 then
      let bits_per_mult :=
        if base ≥ 2 ^ 64 then 64
        else if base ≥ 2 ^ 32 then 32
        else if base ≥ 2 ^ 16 then 16
        else if base ≥ 256 then 8
        else 1
      if bits_per_mult * exp > 256 then throw .overflow
    powLoop 70 exp 1 base

/-- `n^n` dispatch used by `calculate_d` and `calculate_y`. -/
def nPowN (n : Nat) : Except MathErr Nat :=
  if n = 1 then .ok 1
  else if n = 2 then .ok 4
  else if n = 3 then .ok 27
  else if n = 4 then .ok 256
  else pow_u256 n n

/-- Inner `D_P` product loop of one `calculate_d` Newton iteration:
`for x in xp: D_P = D_P * D / (x * N)`. -/
def dPStep (n_u d : Nat) : List Nat → Nat → Except MathErr Nat
  | [], d_p => .ok d_p
  | balance :: rest, d_p => do
      let balance_times_n ← chk (checkedMul256 balance n_u) .overflow
      let prod ← chk (checkedMul256 d_p d) .overflow
      let d_p' ← chk (checkedDiv prod balance_times_n) .divisionByZero
      dPStep n_u d rest d_p'

/-- Newton iteration loop of `calculate_d` (math.rs lines 109–229), fuel =
remaining iterations of the 255 cap; on exhaustion the best estimate is
returned as the source does. -/
def calcDLoop (balances : List Nat) (sum_x ann n_u : Nat) :
    Nat → Nat → Except MathErr Nat
  | 0, d => .ok d
  | fuel + 1, d => do
      let d_p ← dPStep n_u d balances d
      let ann_s ← chk (checkedMul256 ann sum_x) .overflow
      let d_p_n ← chk (checkedMul256 d_p n_u) .overflow
      let numerator_inner ← chk (checkedAdd256 ann_s d_p_n) .overflow
      let numerator ← chk (checkedMul256 numerator_inner d) .overflow
      let ann_minus_1 := satSub ann 1
      let n_plus_1 := satAdd256 n_u 1
      let term1 ← chk (checkedMul256 ann_minus_1 d) .overflow
      let term2 ← chk (checkedMul256 n_plus_1 d_p) .overflow
      let denominator ← chk (checkedAdd256 term1 term2) .overflow
      if denominator = 0 then throw .divisionByZero
      let d' := numerator / denominator
      let diff := if d' > d then d' - d else d - d'
      if diff ≤ 1 then return d'
      else calcDLoop balances sum_x ann n_u fuel d'

/-- `calculate_d` (math.rs lines 52–230). -/
def calculate_d (balances : List Nat) (a : Nat) (n : Nat) : Except MathErr Nat :=
  if balances.length ≠ n then .error .invalidInput
  else if n = 0 then .error .invalidInput
  else
    let sum_x := balances.foldl (fun acc x => satAdd256 acc x) 0
    if sum_x = 0 then .ok 0
    else if balances.contains 0 then .ok 0
    else
      let n_u256 := n
      match nPowN n with
      | .error e => .error e
      | .ok n_pow_n =>
        match checkedMul256 a n_pow_n with
        | none => .error .overflow
        | some ann => calcDLoop balances sum_x ann n_u256 255 sum_x

/-- The `c`/`s` accumulation loop of `calculate_y` over indexed balances
(math.rs lines 320–357). -/
def yCS (d n_u j : Nat) : List Nat → Nat → Nat → Nat → Except MathErr (Nat × Nat)
  | [], _, c, s => .ok (c, s)
  | xp_k :: rest, k, c, s =>
      if k ≠ j then do
        if xp_k = 0 then throw .divisionByZero
        let s' ← chk (checkedAdd256 s xp_k) .overflow
        let xp_k_times_n ← chk (checkedMul256 xp_k n_u) .overflow
        let c1 ← chk (checkedMul256 c d) .overflow
        let c' ← chk (checkedDiv c1 xp_k_times_n) .divisionByZero
        yCS d n_u j rest (k + 1) c' s'
      else yCS d n_u j rest (k + 1) c s

/-- Newton iteration loop of `calculate_y` (math.rs lines 404–475), fuel =
remaining iterations of the 255 cap. -/
def calcYLoop (c b_intermediate d : Nat) : Nat → Nat → Except MathErr Nat
  | 0, y => .ok y
  | fuel + 1, y => do
      let y_squared ← chk (checkedMul256 y y) .overflow
      let numerator ← chk (checkedAdd256 y_squared c) .overflow
      let two_y ← chk (checkedMul256 y 2) .overflow
      let denominator_before_d ← chk (checkedAdd256 two_y b_intermediate) .overflow
      if denominator_before_d < d then throw .invalidInput
      let denominator := denominator_before_d - d
      if denominator = 0 then throw .divisionByZero
      let y' := numerator / denominator
      let diff := if y' > y then y' - y else y - y'
      if diff ≤ 1 then return y'
      else calcYLoop c b_intermediate d fuel y'

/-- `calculate_y` (math.rs lines 264–476). -/
def calculate_y (i j : Nat) (_x : Nat) (xp : List Nat) (a d : Nat) :
    Except MathErr Nat := do
  if i = j then throw .invalidInput
  let n := xp.length
  if j ≥ n then throw .invalidInput
  if n = 0 then throw .invalidInput
  let n_u256 := n
  let n_pow_n ← nPowN n
  let ann ← chk (checkedMul256 a n_pow_n) .overflow
  let cs ← yCS d n_u256 j xp 0 d 0
  let c := cs.1
  let s := cs.2
  let c1 ← chk (checkedMul256 c d) .overflow
  let ann_n ← chk (checkedMul256 ann n_u256) .overflow
  let c2 ← chk (checkedDiv c1 ann_n) .divisionByZero
  let d_over_ann ← chk (checkedDiv d ann) .divisionByZero
  let b_intermediate ← chk (checkedAdd256 s d_over_ann) .overflow
  calcYLoop c2 b_intermediate d 255 d

/-- `calculate_dy` (math.rs lines 498–542). -/
def calculate_dy (i j : Nat) (dx : Nat) (xp : List Nat) (a : Nat) :
    Except MathErr Nat := do
  let n := xp.length
  if i ≥ n ∨ j ≥ n then throw .invalidInput
  if i = j then throw .invalidInput
  let d ← calculate_d xp a n
  let xp_i := xp.getD i 0
  let xp_i' ← chk (checkedAdd256 xp_i dx) .overflow
  let xp_modified := xp.set i xp_i'
  let y ← calculate_y i j dx xp_modified a d
  let xp_j := xp.getD j 0
  if y ≥ xp_j then return 0
  return xp_j - y

/-- Curve `calculate_swap_output` (math.rs lines 558–566). -/
def calculate_swap_output (amount_in : Nat) (token_in_index token_out_index : Nat)
    (balances : List Nat) (a : Nat) : Except MathErr Nat :=
  calculate_dy token_in_index token_out_index amount_in balances a

/-- `calculate_curve_sandwich_profit` (math.rs lines 1264–1372);
`frontrun_token_in = 0` and `frontrun_token_out = 1` are inlined. -/
def calculate_curve_sandwich_profit
    (frontrun_amount victim_amount : Nat) (balances : List Nat)
    (amplification fee_bps aave_fee_bps : Nat) : Except MathErr Nat :=
  let curve_fee := fee_bps
  if balances.length < 2 then .error .invalidInput
  else
    match calculate_dy 0 1 frontrun_amount balances amplification with
    | .error e => .error e
    | .ok raw_frontrun_output =>
      let fee_amount := ((checkedMul256 raw_frontrun_output curve_fee).bind
          (fun v => checkedDiv v 10000)).getD 0
      let frontrun_output := (checkedSub raw_frontrun_output fee_amount).getD 0
      match checkedAdd256 (balances.getD 0 0) frontrun_amount with
      | none => .error .overflow
      | some in0' =>
        let balances1 := balances.set 0 in0'
        match checkedSub (balances1.getD 1 0) frontrun_output with
        | none => .error .underflow
        | some out0' =>
          let balances_post_frontrun := balances1.set 1 out0'
          match calculate_dy 0 1 victim_amount balances_post_frontrun amplification with
          | .error e => .error e
          | .ok victim_output =>
            match checkedAdd256 (balances_post_frontrun.getD 0 0) victim_amount with
            | none => .error .overflow
            | some in1' =>
              let balances2 := balances_post_frontrun.set 0 in1'
              match checkedSub (balances2.getD 1 0) victim_output with
              | none => .error .underflow
              | some out1' =>
                let balances_post_victim := balances2.set 1 out1'
                match calculate_dy 1 0 frontrun_output balances_post_victim
                    amplification with
                | .error e => .error e
                | .ok backrun_output =>
                  match (checkedMul256 frontrun_amount aave_fee_bps).bind
                      (fun v => checkedDiv v 10000) with
                  | none => .error .overflow
                  | some flash_loan_cost =>
                    chk ((checkedSub backrun_output frontrun_amount).bind
                        (fun v => checkedSub v flash_loan_cost)) .underflow

end Curve

/-! ## Balancer weighted-pool math (`src/dex/balancer/math.rs`) -/

namespace Balancer

/-- `SCALE_18`. -/
def SCALE_18 : Nat := 1000000000000000000

/-- Normalisation loop of `ln_u256_q128` (math.rs lines 159–169):
halve until below `2·scale`, counting `k`, breaking once `k > 255`.
Fuel 300 strictly exceeds the 256 possible iterations. -/
def lnNorm (scale : Nat) : Nat → Nat → Nat → Nat × Nat
  | 0, normalized, k => (normalized, k)
  | fuel + 1, normalized, k =>
      if normalized ≥ satMul256 scale 2 then
        let normalized' := normalized / 2
        let k' := k + 1
        if k' > 255 then (normalized', k')
        else lnNorm scale fuel normalized' k'
      else (normalized, k)

/-- `ln_u256_q128` (math.rs lines 129–192). -/
def ln_u256_q128 (x scale : Nat) : Except MathErr (Nat × Bool) := do
  if x = 0 then throw .invalidInput
  if x = scale then return (0, false)
  let is_negative := x < scale
  let work_x :=
    if is_negative then
      ((checkedMul256 scale scale).bind (fun v => checkedDiv v x)).getD scale
    else x
  let nk := lnNorm scale 300 work_x 0
  let normalized := nk.1
  let k := nk.2
  let ln2_scaled := scale / 1000 * 693
  let k_contribution := satMul256 ln2_scaled k
  let frac_contribution :=
    if normalized > scale then
      let diff := normalized - scale
      satMul256 diff scale / normalized
    else 0
  return (satAdd256 k_contribution frac_contribution, is_negative)

/-- `exp_u256_q128` (math.rs lines 197–266). -/
def exp_u256_q128 (x : Nat) (is_negative : Bool) (scale : Nat) :
    Except MathErr Nat := do
  if is_negative ∧ x > satMul256 scale 10 then return 0
  if ¬is_negative ∧ x > satMul256 scale 50 then throw .overflow
  let x_div_scale := x / scale
  if x_div_scale = 0 then
    if is_negative then
      if scale > x then return scale - x else return 0
    else return satAdd256 scale x
  let y := x_div_scale
  let y2 := satMul256 y y
  let y3 := satMul256 y2 y
  let term0 := scale
  let term1 := satMul256 y scale
  let term2 := satMul256 y2 scale / 2
  let term3 := satMul256 y3 scale / 6
  if is_negative then
    let positive := satAdd256 term0 term2
    let negative := satAdd256 term1 term3
    if positive > negative then return positive - negative else return 0
  else
    return satAdd256 (satAdd256 (satAdd256 term0 term1) term2) term3

/-- Integer fallback loop of `pow_u256_with_fractional_exponent`
(math.rs lines 315–332); fuel strictly exceeds the at most 64 halvings of
the `usize` exponent. -/
def powFracFallback (base scale : Nat) : Nat → Nat → Nat → Nat → Nat
  | 0, _, result, _ => result
  | fuel + 1, exp, result, base_pow =>
      if exp = 0 then result
      else
        let result' :=
          if exp % 2 = 1 then
            ((checkedMul256 result base_pow).bind (fun v => checkedDiv v scale)).getD scale
          else result
        let base_pow' :=
          ((checkedMul256 base_pow base_pow).bind (fun v => checkedDiv v scale)).getD base_pow
        powFracFallback base scale fuel (exp / 2) result' base_pow'

/-- `pow_u256_with_fractional_exponent` (math.rs lines 271–335). -/
def pow_u256_with_fractional_exponent (base : Nat) (exp_int : Nat)
    (exp_frac scale : Nat) : Nat :=
  if base = 0 then 0
  else if exp_int = 0 ∧ exp_frac = 0 then scale
  else if base = scale then scale
  else
    match ln_u256_q128 base scale with
    | .error _ => 0
    | .ok (ln_base, ln_is_negative) =>
      let ln_times_int := (checkedMul256 ln_base exp_int).getD U256MAX
      let ln_times_frac :=
        ((checkedMul256 ln_base exp_frac).bind (fun v => checkedDiv v scale)).getD 0
      let total_exp := satAdd256 ln_times_int ln_times_frac
      match exp_u256_q128 total_exp ln_is_negative scale with
      | .ok result => result
      | .error _ => powFracFallback base scale 70 exp_int scale base

/-- Balancer `calculate_swap_output` (math.rs lines 48–124). -/
def calculate_swap_output
    (amount_in balance_in balance_out weight_in weight_out swap_fee : Nat) :
    Except MathErr Nat := do
  if amount_in = 0 then return 0
  if balance_in = 0 ∨ balance_out = 0 then throw .invalidInput
  if weight_in = 0 ∨ weight_out = 0 then throw .invalidInput
  let scale := SCALE_18
  let fee_amount := satMul256 amount_in swap_fee / scale
  let amount_in_with_fee := satSub amount_in fee_amount
  let denominator := satAdd256 balance_in amount_in_with_fee
  if denominator = 0 then throw .divisionByZero
  let ratio := satMul256 balance_in scale / denominator
  if weight_out = 0 then throw .divisionByZero
  let exponent_raw := satMul256 weight_in scale / weight_out
  if exponent_raw / scale > U128MAX then throw .abortPanic
  let exponent_int := exponent_raw / scale % 2 ^ 64
  let exponent_frac := exponent_raw % scale
  let ratio_power := pow_u256_with_fractional_exponent ratio exponent_int exponent_frac scale
  let one_minus_ratio_power := if scale > ratio_power then scale - ratio_power else 0
  return satMul256 balance_out one_minus_ratio_power / scale

end Balancer

/-! ## Uniswap V3 math (`src/dex/uniswap_v3/math.rs`) -/

namespace V3

/-- `MIN_TICK`. -/
def MIN_TICK : Int := -887272

/-- `MAX_TICK`. -/
def MAX_TICK : Int := 887272

/-- `MIN_SQRT_RATIO` constant (named `minSqrtRatio` here). -/
def minSqrtRatio : Nat := 4295128739

/-- `MAX_SQRT_RATIO` constant from `get_max_sqrt_ratio` (named
`maxSqrtRatio` here). -/
def maxSqrtRatio : Nat := 1461446703485210103287273052203988822378723970342

/-- One step of the MSB binary search cascade of `find_msb_u256`. -/
def msbStep (shift : Nat) (rm : Nat × Nat) : Nat × Nat :=
  if rm.1 ≥ 2 ^ shift then (rm.1 / 2 ^ shift, rm.2 + shift) else rm

/-- `find_msb_u256` (math.rs lines 62–104). -/
def find_msb_u256 (value : Nat) : Nat :=
  if value = 0 then 0
  else
    let rm := msbStep 128 (value, 0)
    let rm := msbStep 64 rm
    let rm := msbStep 32 rm
    let rm := msbStep 16 rm
    let rm := msbStep 8 rm
    let rm := msbStep 4 rm
    let rm := msbStep 2 rm
    let rm := if rm.1 ≥ 2 then (rm.1, rm.2 + 1) else rm
    rm.2

/-- `mul_div` (math.rs lines 911–984): `⌊a·b/denominator⌋` through a 512-bit
intermediate, narrowing back with an overflow check (the byte-level
`u512_to_ethers_u256` conversion is value-preserving). -/
def mul_div (a b denominator : Nat) : Except MathErr Nat :=
  if denominator = 0 then .error .divisionByZero
  else
    match checkedMul512 a b with
    | none => .error .overflow
    | some product =>
      let result := product / denominator
      if result > U256MAX then .error .overflow
      else .ok result

/-- `mul_div_rounding_up` (math.rs lines 998–1082):
`(a·b + denominator − 1) / denominator` in 512-bit arithmetic. -/
def mul_div_rounding_up (a b denominator : Nat) : Except MathErr Nat :=
  if denominator = 0 then .error .divisionByZero
  else
    match checkedMul512 a b with
    | none => .error .overflow
    | some product =>
      match checkedSub denominator 1 with
      | none => .error .underflow
      | some rounding_adjustment =>
        match checkedAdd512 product rounding_adjustment with
        | none => .error .overflow
        | some numerator_rounded =>
          let result := numerator_rounded / denominator
          if result > U256MAX then .error .overflow
          else .ok result

/-- Fractional-bit refinement loop of `log2_precise_with_base`
(math.rs lines 197–215); `i` runs 1..16, fuel = remaining bits. -/
def log2Frac (one_in_format two_base : Nat) : Nat → Nat → Nat → Int → Int
  | 0, _, _, log2 => log2
  | fuel + 1, i, r, log2 =>
      let r_squared := okOrD (mul_div r r one_in_format) r
      if r_squared ≥ two_base then
        log2Frac one_in_format two_base fuel (i + 1) (r_squared / 2)
          (log2 + Int.ofNat (2 ^ (64 - i)))
      else
        log2Frac one_in_format two_base fuel (i + 1) r_squared log2

/-- `log2_precise_with_base` (math.rs lines 147–218): Q64.64 result. -/
def log2_precise_with_base (value : Nat) (base_shift : Nat) : Except MathErr Int := do
  if value = 0 then throw .invalidInput
  let one_in_format := 2 ^ base_shift
  if value = one_in_format then return 0
  let msb := find_msb_u256 value
  let log2 : Int := (Int.ofNat msb - Int.ofNat base_shift) * 2 ^ 64
  let r :=
    if msb > base_shift then value / 2 ^ (msb - base_shift)
    else if msb < base_shift then value * 2 ^ (base_shift - msb)
    else value
  let two_base := 2 ^ (base_shift + 1)
  return log2Frac one_in_format two_base 16 1 r log2

/-- `calculate_price_ratio` (math.rs lines 236–289):
`(new_sqrt_price << 64) / old_sqrt_price` via U512. -/
def calculate_price_ratio (new_sqrt_price old_sqrt_price : Nat) :
    Except MathErr Nat := do
  if old_sqrt_price = 0 then throw .divisionByZero
  if new_sqrt_price = 0 then throw .invalidInput
  let numerator ← chk (checkedMul512 new_sqrt_price (2 ^ 64)) .overflow
  let ratio := numerator / old_sqrt_price
  if ratio > U256MAX then throw .overflow
  return ratio

/-- Two's-complement truncation of an `i128` value to `i32`. -/
def wrap32 (x : Int) : Int := (x + 2 ^ 31) % 2 ^ 32 - 2 ^ 31

/-- `calculate_tick_delta_from_ratio` (math.rs lines 299–338); the i128
arithmetic right shift by 64 is floor division. -/
def calculate_tick_delta_from_ratio (ratio : Nat) : Except MathErr Int := do
  if ratio = 0 then throw .invalidInput
  let log2_ratio ← log2_precise_with_base ratio 64
  let tick_delta_i128 := Int.fdiv (log2_ratio * 6931) (2 ^ 64)
  let tick_delta := wrap32 tick_delta_i128
  if tick_delta.natAbs > 10000 then throw .invalidInput
  return tick_delta

/-- One conditional magic-constant multiplication step of
`get_sqrt_ratio_at_tick`: `if abs_tick & bit != 0 { ratio = ratio * magic >> 128 }`. -/
def magicStep (abs_tick bit magic ratio : Nat) : Nat :=
  if abs_tick &&& bit ≠ 0 then ratio * magic / 2 ^ 128 else ratio

/-- `get_sqrt_ratio_at_tick` (math.rs lines 351–500): the exact Uniswap V3
TickMath forward computation with the 19 magic constants, reciprocal for
positive ticks, and round-up narrowing from Q128.128 to Q64.96. -/
def get_sqrt_ratio_at_tick (tick : Int) : Except MathErr Nat :=
  if tick < MIN_TICK ∨ tick > MAX_TICK then .error .invalidInput
  else if tick = 0 then .ok 79228162514264337593543950336
  else if tick = MIN_TICK then .ok minSqrtRatio
  else if tick = MAX_TICK then .ok maxSqrtRatio
  else
    let abs_tick := tick.natAbs
    let ratio : Nat :=
      if abs_tick &&& 1 ≠ 0 then 340265354078544963557816517032075149313
      else 2 ^ 128
    let ratio := magicStep abs_tick 2 340248342086729790484326174814286782906 ratio
    let ratio := magicStep abs_tick 4 340214320654664324051920982716015181772 ratio
    let ratio := magicStep abs_tick 8 340146287995602323631171512101879684816 ratio
    let ratio := magicStep abs_tick 16 340010263488231146823593991679159461444 ratio
    let ratio := magicStep abs_tick 32 339738377640345403697157401104375502528 ratio
    let ratio := magicStep abs_tick 64 339195258003219555707034227454543997025 ratio
    let ratio := magicStep abs_tick 128 338111622100601834656805679988414885971 ratio
    let ratio := magicStep abs_tick 256 335954724994790223023589805789778977700 ratio
    let ratio := magicStep abs_tick 512 331682121138379247127172139078559817300 ratio
    let ratio := magicStep abs_tick 1024 323299236684853023288211250268160618739 ratio
    let ratio := magicStep abs_tick 2048 307163716377032989948697243942600083417 ratio
    let ratio := magicStep abs_tick 4096 277268403626896220162999269216087595813 ratio
    let ratio := magicStep abs_tick 8192 225923453940442621947126027127485391333 ratio
    let ratio := magicStep abs_tick 16384 149997214084966997727330242082538205943 ratio
    let ratio := magicStep abs_tick 32768 66119101136024775622716233608466517926 ratio
    let ratio := magicStep abs_tick 65536 12847376061809297530290974190478138441 ratio
    let ratio := magicStep abs_tick 131072 485053260817066172746253684029974020 ratio
    let ratio := magicStep abs_tick 262144 691415978906521570653435304214168 ratio
    let ratio := magicStep abs_tick 524288 1404880482679654955896180642 ratio
    let result := if tick > 0 then U256MAX / ratio else ratio
    let remainder := result &&& (2 ^ 32 - 1)
    let sqrt_price := result / 2 ^ 32
    .ok (if remainder ≠ 0 then sqrt_price + 1 else sqrt_price)

/-- `SwapDirection` (from `dex/adapter`). -/
inductive SwapDirection where
  | Token0ToToken1
  | Token1ToToken0
  deriving DecidableEq, Repr

/-- `calculate_v3_amount_out` (math.rs lines 1277–1437). -/
def calculate_v3_amount_out (amount_in sqrt_price_x96 liquidity fee_bps : Nat)
    (direction : SwapDirection) : Except MathErr Nat := do
  if amount_in = 0 then throw .invalidInput
  if sqrt_price_x96 = 0 ∨ sqrt_price_x96 < minSqrtRatio then throw .invalidInput
  let liquidity_u256 := liquidity
  if liquidity_u256 = 0 then throw .invalidInput
  let fee_multiplier := 10000 - fee_bps
  let amount_in_after_fee ← chk
      ((checkedMul256 amount_in fee_multiplier).bind (fun v => checkedDiv v 10000)) .overflow
  if amount_in_after_fee = 0 then return 0
  let q96 : Nat := 2 ^ 96
  match direction with
  | .Token0ToToken1 => do
      let numerator ← chk (checkedMul256 liquidity_u256 q96) .overflow
      let product ← chk (checkedMul256 amount_in_after_fee sqrt_price_x96) .overflow
      let denominator ← chk (checkedAdd256 numerator product) .overflow
      let new_sqrt_price ← mul_div numerator sqrt_price_x96 denominator
      if new_sqrt_price ≥ sqrt_price_x96 then throw .invalidInput
      let sqrt_price_diff ← chk (checkedSub sqrt_price_x96 new_sqrt_price) .underflow
      mul_div liquidity_u256 sqrt_price_diff q96
  | .Token1ToToken0 => do
      let sqrt_price_delta ← mul_div amount_in_after_fee q96 liquidity_u256
      let new_sqrt_price ← chk (checkedAdd256 sqrt_price_x96 sqrt_price_delta) .overflow
      let sqrt_price_diff ← chk (checkedSub new_sqrt_price sqrt_price_x96) .underflow
      let numerator ← mul_div liquidity_u256 sqrt_price_diff sqrt_price_x96
      mul_div numerator q96 new_sqrt_price

/-- `i32::checked_add`. -/
def i32CheckedAdd (a b : Int) : Option Int :=
  if -(2 ^ 31) ≤ a + b ∧ a + b < 2 ^ 31 then some (a + b) else none

/-- `calculate_v3_post_frontrun_state` (math.rs lines 1453–1584).
Returns the new sqrt price and the new tick. -/
def calculate_v3_post_frontrun_state
    (frontrun_amount sqrt_price_x96 liquidity : Nat) (tick : Int)
    (fee_bps : Nat) (direction : SwapDirection) : Except MathErr (Nat × Int) := do
  if frontrun_amount = 0 then throw .invalidInput
  if sqrt_price_x96 = 0 ∨ sqrt_price_x96 < minSqrtRatio then throw .invalidInput
  let liquidity_u256 := liquidity
  if liquidity_u256 = 0 then throw .invalidInput
  let fee_multiplier := 10000 - fee_bps
  let amount_in_after_fee ← chk
      ((checkedMul256 frontrun_amount fee_multiplier).bind (fun v => checkedDiv v 10000)) .overflow
  if amount_in_after_fee = 0 then return (sqrt_price_x96, tick)
  let q96 : Nat := 2 ^ 96
  let new_sqrt_price ←
    match direction with
    | .Token0ToToken1 => do
        let numerator ← chk (checkedMul256 liquidity_u256 q96) .overflow
        let product ← chk (checkedMul256 amount_in_after_fee sqrt_price_x96) .overflow
        let denominator ← chk (checkedAdd256 numerator product) .overflow
        mul_div numerator sqrt_price_x96 denominator
    | .Token1ToToken0 => do
        let sqrt_price_delta ← mul_div amount_in_after_fee q96 liquidity_u256
        chk (checkedAdd256 sqrt_price_x96 sqrt_price_delta) .overflow
  let ratio ← calculate_price_ratio new_sqrt_price sqrt_price_x96
  let tick_delta ← calculate_tick_delta_from_ratio ratio
  let new_tick ← chk (i32CheckedAdd tick tick_delta) .overflow
  let new_tick := min (max new_tick MIN_TICK) MAX_TICK
  return (new_sqrt_price, new_tick)

/-- `calculate_v3_post_victim_state` (math.rs lines 1600–1616). -/
def calculate_v3_post_victim_state
    (victim_amount sqrt_price_x96 liquidity : Nat) (tick : Int)
    (fee_bps : Nat) (direction : SwapDirection) : Except MathErr (Nat × Int) :=
  calculate_v3_post_frontrun_state victim_amount sqrt_price_x96 liquidity tick
    fee_bps direction

/-- `calculate_v3_sandwich_profit` (math.rs lines 1191–1262). -/
def calculate_v3_sandwich_profit
    (frontrun_amount victim_amount sqrt_price_x96 liquidity : Nat) (tick : Int)
    (fee_bps aave_fee_bps : Nat) : Except MathErr Nat := do
  let post_frontrun ← calculate_v3_post_frontrun_state frontrun_amount
      sqrt_price_x96 liquidity tick fee_bps .Token0ToToken1
  let sqrt_price_post_frontrun := post_frontrun.1
  let post_victim ← calculate_v3_post_victim_state victim_amount
      sqrt_price_post_frontrun liquidity tick fee_bps .Token0ToToken1
  let sqrt_price_post_victim := post_victim.1
  let backrun_input ← calculate_v3_amount_out frontrun_amount sqrt_price_x96
      liquidity fee_bps .Token0ToToken1
  let backrun_output ← calculate_v3_amount_out backrun_input sqrt_price_post_victim
      liquidity fee_bps .Token0ToToken1
  let flash_loan_cost ← chk
      ((checkedMul256 frontrun_amount aave_fee_bps).bind (fun v => checkedDiv v 10000)) .overflow
  let total_cost := (checkedAdd256 frontrun_amount flash_loan_cost).getD U256MAX
  if backrun_output ≥ total_cost then return backrun_output - total_cost
  else return 0

/-- Loop state of Brent's method: bracket `[a, b]`, best points `x, w, v`
with their profits, and the step memory `d, e`. -/
structure BrentState where
  a : Nat
  b : Nat
  x : Nat
  w : Nat
  v : Nat
  fx : Nat
  fw : Nat
  fv : Nat
  d : Nat
  e : Nat
  deriving Repr

/-- Main loop of `brents_method_v3_sandwich_optimization`
(math.rs lines 1768–1946); `iteration` is the 0-based index, fuel the
remaining iterations of the 50 cap. -/
def brentsLoop (profit : Nat → Except MathErr Nat) (tol0 : Nat) :
    Nat → Nat → BrentState → Except MathErr Nat
  | _, 0, s => .ok s.x
  | iteration, fuel + 1, s => do
      let mid0 ← chk (checkedAdd256 s.a s.b) .abortPanic
      let midpoint := mid0 / 2
      let tol := tol0
      if iteration > 0 then
        let two_tol ← chk (checkedMul256 tol 2) .overflow
        let bma ← chk (checkedSub s.b s.a) .abortPanic
        if bma ≤ two_tol then return s.x
      let du ←
        (if s.e > tol then do
          let r := if s.x > s.w then s.x - s.w else s.w - s.x
          let q := if s.x > s.v then s.x - s.v else s.v - s.x
          let r_sq_fxfv := ((checkedMul256 r r).bind
              (fun t => checkedMul256 t (natAbsDiff s.fx s.fv))).getD 0
          let q_sq_fxfw := ((checkedMul256 q q).bind
              (fun t => checkedMul256 t (natAbsDiff s.fx s.fw))).getD 0
          let r_fxfv := (checkedMul256 r (natAbsDiff s.fx s.fv)).getD 0
          let q_fxfw := (checkedMul256 q (natAbsDiff s.fx s.fw)).getD 0
          let p := if r_sq_fxfv ≥ q_sq_fxfw then r_sq_fxfv - q_sq_fxfw
                   else q_sq_fxfw - r_sq_fxfv
          let denominator :=
            if r_fxfv ≥ q_fxfw then (checkedMul256 (r_fxfv - q_fxfw) 2).getD 0
            else (checkedMul256 (q_fxfw - r_fxfv) 2).getD 0
          if denominator ≠ 0 then do
            let bma2 ← chk (checkedSub s.b s.a) .abortPanic
            if p < (checkedMul256 denominator bma2).getD U256MAX then
              let parabolic_step := p / denominator
              let u := if r_sq_fxfv ≥ q_sq_fxfw then (checkedSub s.x parabolic_step).getD s.a
                       else (checkedAdd256 s.x parabolic_step).getD s.b
              let a_tol ← chk (checkedAdd256 s.a tol) .abortPanic
              if u ≥ a_tol then do
                let b_tol ← chk (checkedSub s.b tol) .abortPanic
                if u ≤ b_tol ∧ parabolic_step < s.e / 2 then
                  pure (parabolic_step, false)
                else pure (s.d, true)
              else pure (s.d, true)
            else pure (s.d, true)
          else pure (s.d, true)
        else pure (s.d, true) : Except MathErr (Nat × Bool))
      let search_left := s.x ≥ midpoint
      let de :=
        if du.2 then
          if search_left then
            let range := satSub s.x s.a
            ((checkedMul256 range 382).getD 0 / 1000, range)
          else
            let range := satSub s.b s.x
            ((checkedMul256 range 382).getD 0 / 1000, range)
        else (du.1, s.e)
      let d2 := de.1
      let e2 := de.2
      let u :=
        if d2 ≥ tol then
          if search_left then max (satSub s.x d2) s.a
          else min (satAdd256 s.x d2) s.b
        else
          if search_left then max (satSub s.x tol) s.a
          else min (satAdd256 s.x tol) s.b
      let fu ←
        match profit u with
        | .ok val => pure val
        | .error _ => throw .invalidInput
      if fu ≥ s.fx then
        let ab := if u ≥ s.x then (u, s.b) else (s.a, u)
        if fu ≥ s.fw ∨ s.w = s.x then
          brentsLoop profit tol0 (iteration + 1) fuel
            ⟨ab.1, ab.2, s.x, u, s.w, s.fx, fu, s.fw, d2, e2⟩
        else if fu ≥ s.fv ∨ s.v = s.x ∨ s.v = s.w then
          brentsLoop profit tol0 (iteration + 1) fuel
            ⟨ab.1, ab.2, s.x, s.w, u, s.fx, s.fw, fu, d2, e2⟩
        else
          brentsLoop profit tol0 (iteration + 1) fuel
            ⟨ab.1, ab.2, s.x, s.w, s.v, s.fx, s.fw, s.fv, d2, e2⟩
      else
        let ab := if u < s.x then (u, s.b) else (s.a, u)
        brentsLoop profit tol0 (iteration + 1) fuel
          ⟨ab.1, ab.2, u, s.x, s.w, fu, s.fx, s.fw, d2, e2⟩

/-- `brents_method_v3_sandwich_optimization` (math.rs lines 1637–1947). -/
def brents_method_v3_sandwich_optimization
    (victim_amount sqrt_price_x96 liquidity : Nat) (tick : Int)
    (fee_bps aave_fee_bps : Nat) : Except MathErr Nat :=
  let tolerance : Nat := 1000000000000000
  let min_flash_loan : Nat := 1000000000000000
  let a := min_flash_loan
  let b := victim_amount
  match checkedSub b a with
  | none => .error .underflow
  | some b_minus_a =>
    match (checkedMul256 b_minus_a 618).bind (fun v => checkedDiv v 1000) with
    | none => .error .overflow
    | some golden_section_step =>
      match checkedSub b golden_section_step with
      | none => .error .underflow
      | some c0 =>
        let c := if c0 < a then a else if c0 > b then b else c0
        let x := c
        let w := c
        let vpt := c
        if victim_amount = 0 then .error .invalidInput
        else if sqrt_price_x96 = 0 ∨ sqrt_price_x96 < minSqrtRatio then
          .error .invalidInput
        else if liquidity = 0 then .error .invalidInput
        else if b ≤ a then .error .invalidInput
        else
          let profit := fun uu => calculate_v3_sandwich_profit uu victim_amount
              sqrt_price_x96 liquidity tick fee_bps aave_fee_bps
          match profit x with
          | .error _ => .error .invalidInput
          | .ok fx => brentsLoop profit tolerance 0 50 ⟨a, b, x, w, vpt, fx, fx, fx, 0, 0⟩

/-- `calculate_derivative` (math.rs lines 505–542): numerical derivative of
`get_sqrt_ratio_at_tick` by central (or one-sided) difference. -/
def calculate_derivative (tick : Int) : Except MathErr Nat := do
  if tick ≤ MIN_TICK then
    let f_plus ← get_sqrt_ratio_at_tick (tick + 1)
    let f_current ← get_sqrt_ratio_at_tick tick
    chk (checkedSub f_plus f_current) .underflow
  else if tick ≥ MAX_TICK then
    let f_current ← get_sqrt_ratio_at_tick tick
    let f_minus ← get_sqrt_ratio_at_tick (tick - 1)
    chk (checkedSub f_current f_minus) .underflow
  else
    let f_plus ← get_sqrt_ratio_at_tick (tick + 1)
    let f_minus ← get_sqrt_ratio_at_tick (tick - 1)
    let diff ← chk (checkedSub f_plus f_minus) .underflow
    return diff / 2

/-- Bisection loop of `calculate_initial_guess` (math.rs lines 551–563);
i32 `/` truncates toward zero, hence `Int.div`. -/
def initialGuessLoop (sqrt_price_x96 : Nat) : Nat → Int → Int → Except MathErr Int
  | 0, low, _ => .ok low
  | fuel + 1, low, high =>
      if high - low ≤ 1 then .ok low
      else do
        let mid := Int.tdiv (low + high) 2
        let mid_sqrt ← get_sqrt_ratio_at_tick mid
        if sqrt_price_x96 ≥ mid_sqrt then initialGuessLoop sqrt_price_x96 fuel mid high
        else initialGuessLoop sqrt_price_x96 fuel low mid

/-- `calculate_initial_guess` (math.rs lines 546–566): 5 bisections. -/
def calculate_initial_guess (sqrt_price_x96 : Nat) : Except MathErr Int :=
  initialGuessLoop sqrt_price_x96 5 MIN_TICK MAX_TICK

/-- `check_convergence` (math.rs lines 570–593); the two `checked_sub`
branches cannot underflow because each is guarded by the comparison. -/
def check_convergence (tick : Int) (sqrt_price_x96 tolerance : Nat) :
    Except MathErr Bool := do
  let sqrt_at_tick ← get_sqrt_ratio_at_tick tick
  let f_abs := natAbsDiff sqrt_at_tick sqrt_price_x96
  return f_abs < tolerance

/-- Two's-complement reinterpretation of a `u128` value as `i128`
(the `as_u128() as i128` cast). -/
def wrap128 (n : Nat) : Int :=
  if n < 2 ^ 127 then Int.ofNat n else Int.ofNat n - 2 ^ 128

/-- `newton_iteration` (math.rs lines 600–679).  `as_u128` panics when the
scaled delta exceeds `u128::MAX` (modelled by `abortPanic`). -/
def newton_iteration (tick : Int) (sqrt_price_x96 : Nat) : Except MathErr Int := do
  let sqrt_at_tick ← get_sqrt_ratio_at_tick tick
  let f_tick_abs := natAbsDiff sqrt_at_tick sqrt_price_x96
  let f_tick_sign := sqrt_at_tick ≥ sqrt_price_x96
  let f_prime ← calculate_derivative tick
  if f_prime = 0 then throw .divisionByZero
  let f_tick_scaled ← chk (checkedMul256 f_tick_abs 1000000000000000000) .overflow
  let delta_tick_scaled ← chk (checkedDiv f_tick_scaled f_prime) .divisionByZero
  let dts := delta_tick_scaled / 1000000000000000000
  if dts > U128MAX then throw .abortPanic
  let delta_tick_abs : Int := wrap128 dts
  let tick_new := if f_tick_sign then tick - delta_tick_abs else tick + delta_tick_abs
  let tick_new := min (max tick_new MIN_TICK) MAX_TICK
  return tick_new

/-- Neighbour-selection step performed by `sqrt_price_to_tick` upon
convergence (math.rs lines 739–809): return whichever of
`tick−1, tick, tick+1` has the sqrt ratio closest to the target. -/
def closestNeighbour (tick : Int) (sqrt_price_x96 : Nat) : Except MathErr Int := do
  let tick_low := max (tick - 1) MIN_TICK
  let tick_high := min (tick + 1) MAX_TICK
  let sqrt_low ← get_sqrt_ratio_at_tick tick_low
  let sqrt_high ← get_sqrt_ratio_at_tick tick_high
  let sqrt_current ← get_sqrt_ratio_at_tick tick
  let diff_low := natAbsDiff sqrt_low sqrt_price_x96
  let diff_current := natAbsDiff sqrt_current sqrt_price_x96
  let diff_high := natAbsDiff sqrt_high sqrt_price_x96
  if diff_low ≤ diff_current ∧ diff_low ≤ diff_high then return tick_low
  else if diff_high ≤ diff_current then return tick_high
  else return tick

/-- Newton loop of `sqrt_price_to_tick` (math.rs lines 736–822), fuel =
remaining iterations of the 10 cap; `none` means fall back to the exact
binary search. -/
def newtonLoop (sqrt_price_x96 tolerance : Nat) : Nat → Int → Except MathErr (Option Int)
  | 0, _ => .ok none
  | fuel + 1, tick => do
      let conv ← check_convergence tick sqrt_price_x96 tolerance
      if conv then
        let t ← closestNeighbour tick sqrt_price_x96
        return some t
      else
        let tick_new ← newton_iteration tick sqrt_price_x96
        if tick_new = tick then return none
        else newtonLoop sqrt_price_x96 tolerance fuel tick_new

/-- Binary-search fallback of `sqrt_price_to_tick` (math.rs lines 826–841);
the interval spans at most `MAX_TICK − MIN_TICK`, so fuel 64 strictly
exceeds the possible number of halvings. -/
def fallbackSearch (sqrt_price_x96 : Nat) : Nat → Int → Int → Except MathErr Int
  | 0, low, _ => .ok low
  | fuel + 1, low, high =>
      if high - low > 1 then do
        let mid := Int.tdiv (low + high) 2
        let mid_sqrt ← get_sqrt_ratio_at_tick mid
        if sqrt_price_x96 ≥ mid_sqrt then fallbackSearch sqrt_price_x96 fuel mid high
        else fallbackSearch sqrt_price_x96 fuel low mid
      else .ok low

/-- `sqrt_price_to_tick` (math.rs lines 704–842). -/
def sqrt_price_to_tick (sqrt_price_x96 : Nat) : Except MathErr Int := do
  if sqrt_price_x96 < minSqrtRatio then return MIN_TICK
  if sqrt_price_x96 ≥ maxSqrtRatio then return MAX_TICK
  if sqrt_price_x96 = 79228162514264337593543950336 then return 0
  if sqrt_price_x96 = minSqrtRatio then return MIN_TICK
  if sqrt_price_x96 = maxSqrtRatio then return MAX_TICK
  let tick ← calculate_initial_guess sqrt_price_x96
  let tolerance := (checkedDiv sqrt_price_x96 1000000000).getD 1
  let res ← newtonLoop sqrt_price_x96 tolerance 10 tick
  match res with
  | some t => return t
  | none => fallbackSearch sqrt_price_x96 64 MIN_TICK MAX_TICK

end V3

/-! ## Theorems for the claims -/

/-- C8: for every combination of balances, weights and swap fee, the
weighted-pool `calculate_swap_output` called with `amount_in = 0` returns
`Ok(0)` — zero output and no error, even when other arguments would fail
validation. -/
theorem balancer_swap_output_zero_input
    (balance_in balance_out weight_in weight_out swap_fee : Nat) :
    Balancer.calculate_swap_output 0 balance_in balance_out weight_in weight_out
      swap_fee = .ok 0 := rfl

/-- C6: `get_sqrt_ratio_at_tick` returns exactly `2^96` at tick 0, exactly
`4295128739` at `MIN_TICK`, exactly the fixed 152-bit `MAX_SQRT_RATIO`
constant at `MAX_TICK`, and an `InvalidInput` error for every tick outside
`[MIN_TICK, MAX_TICK]`. -/
theorem v3_tick_endpoints_and_range :
    V3.get_sqrt_ratio_at_tick 0 = .ok 79228162514264337593543950336 ∧
    79228162514264337593543950336 = 2 ^ 96 ∧
    V3.get_sqrt_ratio_at_tick V3.MIN_TICK = .ok 4295128739 ∧
    V3.get_sqrt_ratio_at_tick V3.MAX_TICK =
      .ok 1461446703485210103287273052203988822378723970342 ∧
    ∀ t : Int, t < V3.MIN_TICK ∨ t > V3.MAX_TICK →
      V3.get_sqrt_ratio_at_tick t = .error .invalidInput := by
  refine ⟨rfl, by norm_num, rfl, rfl, ?_⟩
  intro t ht
  unfold V3.get_sqrt_ratio_at_tick
  rw [if_pos ht]

/-- Witness for C6: the out-of-range clause at the concrete tick 887273. -/
theorem v3_tick_endpoints_and_range_witness :
    ((887273 : Int) < V3.MIN_TICK ∨ (887273 : Int) > V3.MAX_TICK) ∧
    V3.get_sqrt_ratio_at_tick 887273 = .error .invalidInput := by
  have hr : (887273 : Int) < V3.MIN_TICK ∨ (887273 : Int) > V3.MAX_TICK := by
    right
    decide
  exact ⟨hr, v3_tick_endpoints_and_range.2.2.2.2 887273 hr⟩

/-- C7: for every balances array of length `n ≥ 1` containing at least one
zero balance, and every amplification `a`, `calculate_d` returns `Ok(0)`. -/
theorem curve_calculate_d_zero_balance
    (balances : List Nat) (a n : Nat)
    (hlen : balances.length = n) (hn : 1 ≤ n) (hzero : 0 ∈ balances) :
    Curve.calculate_d balances a n = .ok 0 := by
  unfold Curve.calculate_d
  rw [if_neg (by omega)]
  rw [if_neg (by omega)]
  by_cases hs : balances.foldl (fun acc x => satAdd256 acc x) 0 = 0
  · rw [if_pos hs]
  · rw [if_neg hs, if_pos (by simpa using hzero)]

/-- Witness for C7 at the concrete pool `[0, 1000]`, `a = 100`, `n = 2`. -/
theorem curve_calculate_d_zero_balance_witness :
    ([0, 1000] : List Nat).length = 2 ∧ 1 ≤ 2 ∧ 0 ∈ ([0, 1000] : List Nat) ∧
    Curve.calculate_d [0, 1000] 100 2 = .ok 0 := by
  refine ⟨rfl, by omega, by simp, ?_⟩
  exact curve_calculate_d_zero_balance [0, 1000] 100 2 rfl (by omega) (by simp)

/-- Exact characterisation of a successful `calculate_v2_amount_out`. -/
theorem v2_amount_out_ok_iff {aIn rIn rOut fee v : Nat}
    (h : V2.calculate_v2_amount_out aIn rIn rOut fee = .ok v) :
    aIn ≠ 0 ∧ rIn ≠ 0 ∧ rOut ≠ 0 ∧
    v = rOut * (aIn * (10000 - fee)) / (rIn * 10000 + aIn * (10000 - fee)) := by
  unfold V2.calculate_v2_amount_out at h
  by_cases h0 : aIn = 0
  · rw [if_pos h0] at h
    exact absurd h (by simp)
  rw [if_neg h0] at h
  by_cases h1 : rIn = 0 ∨ rOut = 0
  · rw [if_pos h1] at h
    exact absurd h (by simp)
  rw [if_neg h1] at h
  push_neg at h1
  simp only [] at h
  cases hm1 : checkedMul256 aIn (10000 - fee) with
  | none => rw [hm1] at h; exact absurd h (by simp)
  | some f =>
    rw [hm1] at h
    simp only [] at h
    obtain ⟨-, rfl⟩ := checkedMul256_eq_some.1 hm1
    cases hm2 : checkedMul256 rOut (aIn * (10000 - fee)) with
    | none => rw [hm2] at h; exact absurd h (by simp)
    | some num =>
      rw [hm2] at h
      simp only [] at h
      obtain ⟨-, rfl⟩ := checkedMul256_eq_some.1 hm2
      cases hm3 : checkedMul256 rIn 10000 with
      | none => rw [hm3] at h; exact absurd h (by simp)
      | some ris =>
        rw [hm3] at h
        simp only [] at h
        obtain ⟨-, rfl⟩ := checkedMul256_eq_some.1 hm3
        cases hm4 : checkedAdd256 (rIn * 10000) (aIn * (10000 - fee)) with
        | none => rw [hm4] at h; exact absurd h (by simp)
        | some den =>
          rw [hm4] at h
          simp only [] at h
          obtain ⟨-, rfl⟩ := checkedAdd256_eq_some.1 hm4
          have hden : rIn * 10000 + aIn * (10000 - fee) ≠ 0 := by
            have h10 : rIn * 10000 ≠ 0 := Nat.mul_ne_zero h1.1 (by omega)
            omega
          rw [if_neg hden] at h
          exact ⟨h0, h1.1, h1.2, (Except.ok.inj h).symm⟩

/-- A successful `calculate_v2_amount_out` stays within the 256-bit range. -/
theorem v2_amount_out_ok_le {aIn rIn rOut fee v : Nat}
    (h : V2.calculate_v2_amount_out aIn rIn rOut fee = .ok v) : v ≤ U256MAX := by
  unfold V2.calculate_v2_amount_out at h
  by_cases h0 : aIn = 0
  · rw [if_pos h0] at h
    exact absurd h (by simp)
  rw [if_neg h0] at h
  by_cases h1 : rIn = 0 ∨ rOut = 0
  · rw [if_pos h1] at h
    exact absurd h (by simp)
  rw [if_neg h1] at h
  simp only [] at h
  cases hm1 : checkedMul256 aIn (10000 - fee) with
  | none => rw [hm1] at h; exact absurd h (by simp)
  | some f =>
    rw [hm1] at h
    simp only [] at h
    cases hm2 : checkedMul256 rOut f with
    | none => rw [hm2] at h; exact absurd h (by simp)
    | some num =>
      rw [hm2] at h
      simp only [] at h
      obtain ⟨hb2, rfl⟩ := checkedMul256_eq_some.1 hm2
      cases hm3 : checkedMul256 rIn 10000 with
      | none => rw [hm3] at h; exact absurd h (by simp)
      | some ris =>
        rw [hm3] at h
        simp only [] at h
        cases hm4 : checkedAdd256 ris f with
        | none => rw [hm4] at h; exact absurd h (by simp)
        | some den =>
          rw [hm4] at h
          simp only [] at h
          by_cases hden : den = 0
          · rw [if_pos hden] at h
            exact absurd h (by simp)
          · rw [if_neg hden] at h
            calc v = rOut * f / den := (Except.ok.inj h).symm
              _ ≤ rOut * f := Nat.div_le_self _ _
              _ ≤ U256MAX := hb2

/-- C1: whenever `calculate_v2_amount_out` returns `Ok` on positive input,
positive reserves and `fee_bps ≤ 10000`, the value is exactly
`⌊reserve_out·amount_in·(10000−fee) / (reserve_in·10000 + amount_in·(10000−fee))⌋`;
in particular the concrete example swap returns exactly
`⌊(50_000_000·1_000_000·9970) / (100_000_000·10000 + 1_000_000·9970)⌋`. -/
theorem v2_amount_out_closed_form :
    (∀ amount_in reserve_in reserve_out fee_bps v : Nat,
        0 < amount_in → 0 < reserve_in → 0 < reserve_out → fee_bps ≤ 10000 →
        V2.calculate_v2_amount_out amount_in reserve_in reserve_out fee_bps = .ok v →
        v = reserve_out * amount_in * (10000 - fee_bps) /
            (reserve_in * 10000 + amount_in * (10000 - fee_bps))) ∧
    V2.calculate_v2_amount_out 1000000 100000000 50000000 30 =
      .ok (50000000 * 1000000 * 9970 / (100000000 * 10000 + 1000000 * 9970)) := by
  constructor
  · intro aIn rIn rOut fee v _ _ _ _ h
    have hv := (v2_amount_out_ok_iff h).2.2.2
    rwa [← Nat.mul_assoc] at hv
  · rfl

/-- Witness for C1 at the concrete swap of the claim. -/
theorem v2_amount_out_closed_form_witness :
    V2.calculate_v2_amount_out 1000000 100000000 50000000 30 = .ok 493579 ∧
    (493579 : Nat) = 50000000 * 1000000 * 9970 /
      (100000000 * 10000 + 1000000 * 9970) :=
  ⟨rfl, v2_amount_out_closed_form.1 1000000 100000000 50000000 30 493579
    (by omega) (by omega) (by omega) (by omega) rfl⟩

/-- C5: for every valid V2 swap for which `calculate_v2_post_swap_state`
returns `Ok((R_in', R_out', amount_out))`: `amount_out < reserve_out`,
`R_in' = reserve_in + amount_in` and `R_out' = reserve_out − amount_out`;
and `calculate_v2_amount_out` errors on zero input or a zero reserve. -/
theorem v2_post_swap_state_conservation :
    (∀ amount_in reserve_in reserve_out fee_bps rIn' rOut' amount_out : Nat,
        0 < amount_in → 0 < reserve_in → 0 < reserve_out → fee_bps ≤ 10000 →
        V2.calculate_v2_post_swap_state amount_in reserve_in reserve_out fee_bps =
          .ok (rIn', rOut', amount_out) →
        amount_out < reserve_out ∧ rIn' = reserve_in + amount_in ∧
        rOut' = reserve_out - amount_out) ∧
    (∀ reserve_in reserve_out fee_bps : Nat,
        V2.calculate_v2_amount_out 0 reserve_in reserve_out fee_bps =
          .error .invalidInput) ∧
    (∀ amount_in reserve_out fee_bps : Nat,
        V2.calculate_v2_amount_out amount_in 0 reserve_out fee_bps =
          .error .invalidInput) ∧
    (∀ amount_in reserve_in fee_bps : Nat,
        V2.calculate_v2_amount_out amount_in reserve_in 0 fee_bps =
          .error .invalidInput) := by
  refine ⟨?_, ?_, ?_, ?_⟩
  · intro aIn rIn rOut fee rIn' rOut' out haIn hrIn hrOut hfee h
    unfold V2.calculate_v2_post_swap_state at h
    cases ha : V2.calculate_v2_amount_out aIn rIn rOut fee with
    | error e => rw [ha] at h; exact absurd h (by simp)
    | ok v =>
      rw [ha] at h
      simp only [] at h
      obtain ⟨-, -, -, hval⟩ := v2_amount_out_ok_iff ha
      have hlt : v < rOut := by
        subst hval
        have h10 : rIn * 10000 ≠ 0 := Nat.mul_ne_zero (by omega) (by omega)
        have hXY : aIn * (10000 - fee) < rIn * 10000 + aIn * (10000 - fee) := by
          omega
        have hnum : rOut * (aIn * (10000 - fee)) < rOut *
            (rIn * 10000 + aIn * (10000 - fee)) :=
          mul_lt_mul_of_pos_left hXY (by omega)
        exact Nat.div_lt_of_lt_mul (hnum.trans_eq (Nat.mul_comm _ _))
      cases hadd : checkedAdd256 rIn aIn with
      | none => rw [hadd] at h; exact absurd h (by simp)
      | some nin =>
        rw [hadd] at h
        simp only [] at h
        obtain ⟨-, rfl⟩ := checkedAdd256_eq_some.1 hadd
        cases hsub : checkedSub rOut v with
        | none => rw [hsub] at h; exact absurd h (by simp)
        | some nout =>
          rw [hsub] at h
          simp only [] at h
          obtain ⟨-, rfl⟩ := checkedSub_eq_some.1 hsub
          simp only [Except.ok.injEq, Prod.mk.injEq] at h
          obtain ⟨h1, h2, h3⟩ := h
          refine ⟨h3 ▸ hlt, h1.symm, ?_⟩
          rw [← h3, ← h2]
  · intro rIn rOut fee
    rfl
  · intro aIn rOut fee
    unfold V2.calculate_v2_amount_out
    by_cases h0 : aIn = 0
    · rw [if_pos h0]
    · rw [if_neg h0, if_pos (Or.inl rfl)]
  · intro aIn rIn fee
    unfold V2.calculate_v2_amount_out
    by_cases h0 : aIn = 0
    · rw [if_pos h0]
    · rw [if_neg h0, if_pos (Or.inr rfl)]

/-- A successful `mul_div` computes the floor quotient. -/
theorem mul_div_ok_val {a b d q : Nat} (h : V3.mul_div a b d = .ok q) :
    d ≠ 0 ∧ q = a * b / d := by
  unfold V3.mul_div at h
  by_cases hd : d = 0
  · rw [if_pos hd] at h
    exact absurd h (by simp)
  rw [if_neg hd] at h
  cases hm : checkedMul512 a b with
  | none => rw [hm] at h; exact absurd h (by simp)
  | some p =>
    rw [hm] at h
    simp only [] at h
    obtain ⟨-, rfl⟩ := checkedMul512_eq_some.1 hm
    by_cases hres : a * b / d > U256MAX
    · rw [if_pos hres] at h
      exact absurd h (by simp)
    · rw [if_neg hres] at h
      exact ⟨hd, (Except.ok.inj h).symm⟩

/-- A successful `mul_div_rounding_up` computes `(a·b + (d−1)) / d`. -/
theorem mul_div_rounding_up_ok_val {a b d r : Nat}
    (h : V3.mul_div_rounding_up a b d = .ok r) :
    d ≠ 0 ∧ r = (a * b + (d - 1)) / d := by
  unfold V3.mul_div_rounding_up at h
  by_cases hd : d = 0
  · rw [if_pos hd] at h
    exact absurd h (by simp)
  rw [if_neg hd] at h
  cases hm : checkedMul512 a b with
  | none => rw [hm] at h; exact absurd h (by simp)
  | some p =>
    rw [hm] at h
    simp only [] at h
    obtain ⟨-, rfl⟩ := checkedMul512_eq_some.1 hm
    cases hs : checkedSub d 1 with
    | none => rw [hs] at h; exact absurd h (by simp)
    | some adj =>
      rw [hs] at h
      simp only [] at h
      obtain ⟨-, rfl⟩ := checkedSub_eq_some.1 hs
      cases ha : checkedAdd512 (a * b) (d - 1) with
      | none => rw [ha] at h; exact absurd h (by simp)
      | some nr =>
        rw [ha] at h
        simp only [] at h
        obtain ⟨-, rfl⟩ := checkedAdd512_eq_some.1 ha
        by_cases hres : (a * b + (d - 1)) / d > U256MAX
        · rw [if_pos hres] at h
          exact absurd h (by simp)
        · rw [if_neg hres] at h
          exact ⟨hd, (Except.ok.inj h).symm⟩

/-- C3: whenever both `mul_div` and `mul_div_rounding_up` succeed with a
nonzero denominator, the rounded-up result dominates the rounded-down one,
strictly exactly when `(a·b) mod d ≠ 0`; `mul_div` computes `⌊a·b/d⌋` and
`mul_div_rounding_up` computes `⌈a·b/d⌉` via `(a·b + d − 1)/d`. -/
theorem mul_div_round_up_discipline :
    ∀ a b d q r : Nat, d ≠ 0 →
      V3.mul_div a b d = .ok q →
      V3.mul_div_rounding_up a b d = .ok r →
      (q ≤ r ∧ (q < r ↔ a * b % d ≠ 0)) ∧
      q = a * b / d ∧ r = (a * b + d - 1) / d := by
  intro a b d q r hd hq hr
  obtain ⟨-, hqv⟩ := mul_div_ok_val hq
  obtain ⟨-, hrv⟩ := mul_div_rounding_up_ok_val hr
  have hd1 : 1 ≤ d := Nat.pos_of_ne_zero hd
  have hrv' : r = (a * b + d - 1) / d := by
    rw [hrv]
    congr 1
    omega
  set n := a * b with hn
  set k := n / d with hk
  set s := n % d with hsdef
  have hsd : s < d := Nat.mod_lt _ (Nat.pos_of_ne_zero hd)
  have hnds : n = d * k + s := (Nat.div_add_mod n d).symm
  by_cases hs0 : s = 0
  · have hr0 : r = k := by
      have key : n + (d - 1) = d * k + (d - 1) := by omega
      rw [hrv, key, Nat.mul_add_div (Nat.pos_of_ne_zero hd),
        Nat.div_eq_of_lt (by omega)]
      omega
    refine ⟨⟨?_, ?_⟩, hqv, hrv'⟩
    · omega
    · constructor
      · intro hlt
        omega
      · intro hne
        exact absurd hs0 hne
  · have hr1 : r = k + 1 := by
      have hmul : d * (k + 1) = d * k + d := by ring
      have key : n + (d - 1) = d * (k + 1) + (s - 1) := by omega
      rw [hrv, key, Nat.mul_add_div (Nat.pos_of_ne_zero hd),
        Nat.div_eq_of_lt (by omega)]
    refine ⟨⟨?_, ?_⟩, hqv, hrv'⟩
    · omega
    · constructor
      · intro _
        exact hs0
      · intro _
        omega

/-- Counterexample for C4: at `frontrun = victim = 10^18` on the balanced
Curve pool `[10^21, 10^21]` with `A = 100`, `fee = 4 bps`,
`flash fee = 9 bps`, the three component swaps all succeed and the back-run
output is smaller than the front-run amount plus the flash-loan cost, yet
`calculate_curve_sandwich_profit` returns an `Underflow` error instead of
the claimed `Ok(0)`. -/
theorem curve_sandwich_no_saturation_cex :
    Curve.calculate_dy 0 1 (10 ^ 18) [10 ^ 21, 10 ^ 21] 100 =
      .ok 999995024895447955 ∧
    Curve.calculate_dy 0 1 (10 ^ 18)
      [10 ^ 21 + 10 ^ 18, 10 ^ 21 - 999595026885489776] 100 =
      .ok 999985076719260115 ∧
    Curve.calculate_dy 1 0 999595026885489776
      [10 ^ 21 + 10 ^ 18 + 10 ^ 18,
       10 ^ 21 - 999595026885489776 - 999985076719260115] 100 =
      .ok 999609946285139526 ∧
    (999609946285139526 : Nat) < 10 ^ 18 + 10 ^ 18 * 9 / 10000 ∧
    Curve.calculate_curve_sandwich_profit (10 ^ 18) (10 ^ 18) [10 ^ 21, 10 ^ 21]
      100 4 9 = .error .underflow := by
  refine ⟨rfl, rfl, rfl, by norm_num, rfl⟩

/-- C4 (amended): when the three component swaps succeed and the back-run
output falls short of the front-run amount plus the flash-loan cost, the V2
sandwich-profit function saturates to `Ok(0)`, while the Curve
sandwich-profit function instead returns an `Underflow` error. -/
theorem sandwich_profit_saturation_contract :
    (∀ f v rIn rOut fee aave s1i s1o fOut s2i s2o vOut back : Nat,
        V2.calculate_v2_post_swap_state f rIn rOut fee = .ok (s1i, s1o, fOut) →
        V2.calculate_v2_post_swap_state v s1i s1o fee = .ok (s2i, s2o, vOut) →
        V2.calculate_v2_amount_out fOut s2o s2i fee = .ok back →
        f * aave ≤ U256MAX →
        back < f + f * aave / 10000 →
        V2.calculate_v2_sandwich_profit f v rIn rOut fee aave = .ok 0) ∧
    (∀ f v A fee aave rawF vOut back : Nat, ∀ bal bal1 bal2 bal3 bal4 : List Nat,
        2 ≤ bal.length →
        fee ≤ 10000 →
        Curve.calculate_dy 0 1 f bal A = .ok rawF →
        rawF * fee ≤ U256MAX →
        bal.getD 0 0 + f ≤ U256MAX →
        bal1 = bal.set 0 (bal.getD 0 0 + f) →
        rawF - rawF * fee / 10000 ≤ bal1.getD 1 0 →
        bal2 = bal1.set 1 (bal1.getD 1 0 - (rawF - rawF * fee / 10000)) →
        Curve.calculate_dy 0 1 v bal2 A = .ok vOut →
        bal2.getD 0 0 + v ≤ U256MAX →
        bal3 = bal2.set 0 (bal2.getD 0 0 + v) →
        vOut ≤ bal3.getD 1 0 →
        bal4 = bal3.set 1 (bal3.getD 1 0 - vOut) →
        Curve.calculate_dy 1 0 (rawF - rawF * fee / 10000) bal4 A = .ok back →
        f * aave ≤ U256MAX →
        back < f + f * aave / 10000 →
        Curve.calculate_curve_sandwich_profit f v bal A fee aave =
          .error .underflow) := by
  constructor
  · intro f v rIn rOut fee aave s1i s1o fOut s2i s2o vOut back h1 h2 h3 hca hlt
    have hble : back ≤ U256MAX := v2_amount_out_ok_le h3
    unfold V2.calculate_v2_sandwich_profit
    rw [h1]
    simp only []
    rw [h2]
    simp only []
    rw [h3]
    simp only []
    have e1 : checkedMul256 f aave = some (f * aave) := by
      unfold checkedMul256
      rw [if_pos hca]
    rw [e1]
    simp only [Option.bind]
    have e2 : checkedDiv (f * aave) 10000 = some (f * aave / 10000) := by
      unfold checkedDiv
      rw [if_neg (by omega)]
    rw [e2]
    simp only []
    by_cases hge : back ≥ satAdd256 f (f * aave / 10000)
    · rw [if_pos hge]
      have heq : back = satAdd256 f (f * aave / 10000) := by
        unfold satAdd256 at hge ⊢
        omega
      rw [heq, Nat.sub_self]
    · rw [if_neg hge]
  · intro f v A fee aave rawF vOut back bal bal1 bal2 bal3 bal4
    intro hlen hfee h1 hmf hadd0 hb1 hsub0 hb2 h2 hadd1 hb3 hsub1 hb4 h3 hca hlt
    unfold Curve.calculate_curve_sandwich_profit
    rw [if_neg (by omega)]
    rw [h1]
    simp only []
    have e1 : checkedMul256 rawF fee = some (rawF * fee) := by
      unfold checkedMul256
      rw [if_pos hmf]
    rw [e1]
    simp only [Option.bind]
    have e2 : checkedDiv (rawF * fee) 10000 = some (rawF * fee / 10000) := by
      unfold checkedDiv
      rw [if_neg (by omega)]
    rw [e2]
    simp only [Option.getD]
    have e3 : checkedSub rawF (rawF * fee / 10000) =
        some (rawF - rawF * fee / 10000) := by
      unfold checkedSub
      have hle : rawF * fee / 10000 ≤ rawF := by
        have h1le : rawF * fee ≤ rawF * 10000 := Nat.mul_le_mul_left _ hfee
        calc rawF * fee / 10000 ≤ rawF * 10000 / 10000 := Nat.div_le_div_right h1le
          _ = rawF := Nat.mul_div_cancel rawF (by omega)
      rw [if_pos hle]
    rw [e3]
    simp only [Option.getD]
    have e4 : checkedAdd256 (bal.getD 0 0) f = some (bal.getD 0 0 + f) := by
      unfold checkedAdd256
      rw [if_pos hadd0]
    rw [e4]
    simp only []
    rw [← hb1]
    have e5 : checkedSub (bal1.getD 1 0) (rawF - rawF * fee / 10000) =
        some (bal1.getD 1 0 - (rawF - rawF * fee / 10000)) := by
      unfold checkedSub
      rw [if_pos hsub0]
    rw [e5]
    simp only []
    rw [← hb2, h2]
    simp only []
    have e6 : checkedAdd256 (bal2.getD 0 0) v = some (bal2.getD 0 0 + v) := by
      unfold checkedAdd256
      rw [if_pos hadd1]
    rw [e6]
    simp only []
    rw [← hb3]
    have e7 : checkedSub (bal3.getD 1 0) vOut =
        some (bal3.getD 1 0 - vOut) := by
      unfold checkedSub
      rw [if_pos hsub1]
    rw [e7]
    simp only []
    rw [← hb4, h3]
    simp only []
    have e8 : checkedMul256 f aave = some (f * aave) := by
      unfold checkedMul256
      rw [if_pos hca]
    rw [e8]
    simp only [Option.bind]
    have e9 : checkedDiv (f * aave) 10000 = some (f * aave / 10000) := by
      unfold checkedDiv
      rw [if_neg (by omega)]
    rw [e9]
    simp only []
    by_cases hbf : f ≤ back
    · have e10 : checkedSub back f = some (back - f) := by
        unfold checkedSub
        rw [if_pos hbf]
      rw [e10]
      simp only [Option.bind]
      have e11 : checkedSub (back - f) (f * aave / 10000) = none := by
        unfold checkedSub
        rw [if_neg (by omega)]
      rw [e11]
      rfl
    · have e10 : checkedSub back f = none := by
        unfold checkedSub
        rw [if_neg (by omega)]
      rw [e10]
      rfl

/-- Witness for C4 (amended): the V2 clause at the front-run 1000 against a
victim of 10 on the symmetric million-unit pool, and the Curve clause at the
counterexample pool. -/
theorem sandwich_profit_saturation_contract_witness :
    V2.calculate_v2_sandwich_profit 1000 10 1000000 1000000 30 9 = .ok 0 ∧
    Curve.calculate_curve_sandwich_profit (10 ^ 18) (10 ^ 18) [10 ^ 21, 10 ^ 21]
      100 4 9 = .error .underflow := by
  constructor
  · exact sandwich_profit_saturation_contract.1 1000 10 1000000 1000000 30 9
      1001000 999004 996 1001010 998995 9 994
      rfl rfl rfl (by norm_num [U256MAX]) (by norm_num)
  · exact sandwich_profit_saturation_contract.2 (10 ^ 18) (10 ^ 18) 100 4 9
      999995024895447955 999985076719260115 999609946285139526
      [10 ^ 21, 10 ^ 21]
      [10 ^ 21 + 10 ^ 18, 10 ^ 21]
      [10 ^ 21 + 10 ^ 18, 10 ^ 21 - 999595026885489776]
      [10 ^ 21 + 10 ^ 18 + 10 ^ 18, 10 ^ 21 - 999595026885489776]
      [10 ^ 21 + 10 ^ 18 + 10 ^ 18,
        10 ^ 21 - 999595026885489776 - 999985076719260115]
      (by norm_num) (by norm_num) rfl (by norm_num [U256MAX])
      (by norm_num [U256MAX]) rfl (by norm_num) rfl rfl
      (by norm_num [U256MAX]) rfl (by norm_num) rfl rfl
      (by norm_num [U256MAX]) (by norm_num)

/-- Witness for C3 at `a = 7, b = 5, d = 3`: floor 11, ceiling 12. -/
theorem mul_div_round_up_discipline_witness :
    V3.mul_div 7 5 3 = .ok 11 ∧ V3.mul_div_rounding_up 7 5 3 = .ok 12 ∧
    ((11 : Nat) ≤ 12 ∧ ((11 : Nat) < 12 ↔ (7 * 5) % 3 ≠ 0)) ∧
    (11 : Nat) = 7 * 5 / 3 ∧ (12 : Nat) = (7 * 5 + 3 - 1) / 3 :=
  ⟨rfl, rfl, mul_div_round_up_discipline 7 5 3 11 12 (by omega) rfl rfl⟩

/-- The golden-section step `saturating_mul(diff, 618033988) / 10^9` never
exceeds `diff`. -/
theorem golden_le_diff (nd : Nat) : satMul256 nd 618033988 / 1000000000 ≤ nd := by
  unfold satMul256
  rcases Nat.le_total (nd * 618033988) U256MAX with hle | hge
  · rw [Nat.min_eq_left hle]
    calc nd * 618033988 / 1000000000
        ≤ nd * 1000000000 / 1000000000 :=
          Nat.div_le_div_right (Nat.mul_le_mul (Nat.le_refl nd) (by omega))
      _ = nd := Nat.mul_div_cancel nd (by omega)
  · rw [Nat.min_eq_right hge]
    calc U256MAX / 1000000000
        ≤ nd * 618033988 / 1000000000 := Nat.div_le_div_right hge
      _ ≤ nd * 1000000000 / 1000000000 :=
          Nat.div_le_div_right (Nat.mul_le_mul (Nat.le_refl nd) (by omega))
      _ = nd := Nat.mul_div_cancel nd (by omega)

/-- The golden-section loop keeps its result inside `[0, V]` whenever all
four bracketing points start inside `[0, V]`. -/
theorem goldenLoop_le (profit : Nat → Nat) (tol V : Nat) :
    ∀ fuel a b c d fc fd, a ≤ V → b ≤ V → c ≤ V → d ≤ V →
      ∀ x, V2.goldenLoop profit tol fuel a b c d fc fd = .ok x → x ≤ V := by
  intro fuel
  induction fuel with
  | zero =>
    intro a b c d fc fd ha hb hc hd x h
    unfold V2.goldenLoop at h
    cases hadd : checkedAdd256 a b with
    | none => rw [hadd] at h; exact absurd h (by simp)
    | some s =>
      rw [hadd] at h
      simp only [] at h
      obtain ⟨-, rfl⟩ := checkedAdd256_eq_some.1 hadd
      have hx := (Except.ok.inj h).symm
      omega
  | succ n ih =>
    intro a b c d fc fd ha hb hc hd x h
    unfold V2.goldenLoop at h
    by_cases hconv : satSub b a < tol
    · rw [if_pos hconv] at h
      cases hadd : checkedAdd256 a b with
      | none => rw [hadd] at h; exact absurd h (by simp)
      | some s =>
        rw [hadd] at h
        simp only [] at h
        obtain ⟨-, rfl⟩ := checkedAdd256_eq_some.1 hadd
        have hx := (Except.ok.inj h).symm
        omega
    · rw [if_neg hconv] at h
      by_cases hcmp : fc < fd
      · rw [if_pos hcmp] at h
        cases hsub : checkedSub b c with
        | none => rw [hsub] at h; exact absurd h (by simp)
        | some nd2 =>
          rw [hsub] at h
          simp only [] at h
          obtain ⟨hcb, rfl⟩ := checkedSub_eq_some.1 hsub
          cases hsub2 : checkedSub b (satMul256 (b - c) 618033988 / 1000000000) with
          | none => rw [hsub2] at h; exact absurd h (by simp)
          | some d' =>
            rw [hsub2] at h
            simp only [] at h
            obtain ⟨-, rfl⟩ := checkedSub_eq_some.1 hsub2
            exact ih c b d _ _ _ hc hb hd (le_trans (Nat.sub_le _ _) hb) x h
      · rw [if_neg hcmp] at h
        cases hsub : checkedSub d a with
        | none => rw [hsub] at h; exact absurd h (by simp)
        | some nd2 =>
          rw [hsub] at h
          simp only [] at h
          obtain ⟨had, rfl⟩ := checkedSub_eq_some.1 hsub
          cases haddc : checkedAdd256 a (satMul256 (d - a) 618033988 / 1000000000) with
          | none => rw [haddc] at h; exact absurd h (by simp)
          | some c' =>
            rw [haddc] at h
            simp only [] at h
            obtain ⟨-, rfl⟩ := checkedAdd256_eq_some.1 haddc
            have hg := golden_le_diff (d - a)
            exact ih a d _ c _ _ ha hd (by omega) hc x h

/-- C9: whenever the V2 golden-section optimiser returns `Ok(x)`, the
front-run size `x` lies in the initial bracket `[0, victim_amount]`; the
search tolerance is `max(1, victim/10000)` and the loop runs at most 50
iterations. -/
theorem v2_optimizer_bracket :
    ∀ victim_amount reserve_in reserve_out fee_bps aave_fee_bps x : Nat,
      V2.newton_raphson_sandwich_optimization victim_amount reserve_in
        reserve_out fee_bps aave_fee_bps = .ok x →
      x ≤ victim_amount ∧
      V2.v2OptTolerance victim_amount = max 1 (victim_amount / 10000) ∧
      V2.v2OptMaxIters = 50 := by
  intro victim rIn rOut fee aave x h
  refine ⟨?_, by unfold V2.v2OptTolerance; omega, rfl⟩
  unfold V2.newton_raphson_sandwich_optimization at h
  simp only [] at h
  cases hc0 : checkedAdd256 0 (satMul256 (victim - 0) 618033988 / 1000000000) with
  | none => rw [hc0] at h; exact absurd h (by simp)
  | some c0 =>
    rw [hc0] at h
    simp only [] at h
    obtain ⟨-, rfl⟩ := checkedAdd256_eq_some.1 hc0
    cases hd0 : checkedSub victim (satMul256 (victim - 0) 618033988 / 1000000000) with
    | none => rw [hd0] at h; exact absurd h (by simp)
    | some d0 =>
      rw [hd0] at h
      simp only [] at h
      obtain ⟨-, rfl⟩ := checkedSub_eq_some.1 hd0
      have hg : satMul256 (victim - 0) 618033988 / 1000000000 ≤ victim := by
        have := golden_le_diff (victim - 0)
        omega
      refine goldenLoop_le _ _ victim _ _ _ _ _ _ _ (by omega) (by omega)
        ?_ ?_ x h
      · split <;> omega
      · split <;> omega

/-- Witness for C9: the optimiser on the symmetric million-unit pool with a
victim of 100 returns 0, which lies in `[0, 100]`. -/
theorem v2_optimizer_bracket_witness :
    V2.newton_raphson_sandwich_optimization 100 1000000 1000000 30 9 = .ok 0 ∧
    (0 : Nat) ≤ 100 ∧ V2.v2OptTolerance 100 = max 1 (100 / 10000) ∧
    V2.v2OptMaxIters = 50 := by
  have h : V2.newton_raphson_sandwich_optimization 100 1000000 1000000 30 9 =
      .ok 0 := by rfl
  have hm := v2_optimizer_bracket 100 1000000 1000000 30 9 0 h
  exact ⟨h, hm.1, hm.2.1, hm.2.2⟩

/-- C10: the V3 Brent optimiser hard-codes `10^15` (0.001 ETH) as its lower
search bound, so for every `victim_amount ≤ 10^15` it returns an error, for
all values of the remaining arguments. -/
theorem v3_brents_minimum_floor :
    ∀ victim_amount sqrt_price_x96 liquidity : Nat, ∀ tick : Int,
      ∀ fee_bps aave_fee_bps : Nat,
      victim_amount ≤ 10 ^ 15 →
      ∃ e, V3.brents_method_v3_sandwich_optimization victim_amount
        sqrt_price_x96 liquidity tick fee_bps aave_fee_bps = .error e := by
  intro victim sqrtP liq tick fee aave hv
  unfold V3.brents_method_v3_sandwich_optimization
  simp only []
  by_cases hlt : victim < 1000000000000000
  · have e1 : checkedSub victim 1000000000000000 = none := by
      unfold checkedSub
      rw [if_neg (by omega)]
    rw [e1]
    exact ⟨.underflow, rfl⟩
  · have hveq : victim = 1000000000000000 := by
      have : (10 : Nat) ^ 15 = 1000000000000000 := by norm_num
      omega
    subst hveq
    have e1 : checkedSub 1000000000000000 1000000000000000 = some 0 := by
      unfold checkedSub
      norm_num
    rw [e1]
    simp only []
    have e2 : (checkedMul256 0 618).bind (fun v => checkedDiv v 1000) = some 0 := by
      have em : checkedMul256 0 618 = some 0 := by
        unfold checkedMul256
        norm_num
      rw [em]
      simp only [Option.bind]
      unfold checkedDiv
      norm_num
    rw [e2]
    simp only []
    have e3 : checkedSub 1000000000000000 0 = some 1000000000000000 := by
      unfold checkedSub
      norm_num
    rw [e3]
    simp only []
    rw [if_neg (by norm_num : ¬(1000000000000000 : Nat) = 0)]
    by_cases hsp : sqrtP = 0 ∨ sqrtP < V3.minSqrtRatio
    · rw [if_pos hsp]
      exact ⟨.invalidInput, rfl⟩
    · rw [if_neg hsp]
      by_cases hliq : liq = 0
      · rw [if_pos hliq]
        exact ⟨.invalidInput, rfl⟩
      · rw [if_neg hliq]
        rw [if_pos (by norm_num : (1000000000000000 : Nat) ≤ 1000000000000000)]
        exact ⟨.invalidInput, rfl⟩

/-- Sampled exact round-trips of the tick conversion pair: at these
representative ticks (interior, near-extreme and the three fast-path
points), `sqrt_price_to_tick` inverts `get_sqrt_ratio_at_tick` exactly. -/
theorem tick_round_trip_samples :
    (V3.get_sqrt_ratio_at_tick 1000).bind V3.sqrt_price_to_tick = .ok 1000 ∧
    (V3.get_sqrt_ratio_at_tick (-123456)).bind V3.sqrt_price_to_tick =
      .ok (-123456) ∧
    (V3.get_sqrt_ratio_at_tick 500000).bind V3.sqrt_price_to_tick = .ok 500000 ∧
    (V3.get_sqrt_ratio_at_tick (-887271)).bind V3.sqrt_price_to_tick =
      .ok (-887271) ∧
    (V3.get_sqrt_ratio_at_tick 887271).bind V3.sqrt_price_to_tick = .ok 887271 ∧
    (V3.get_sqrt_ratio_at_tick V3.MIN_TICK).bind V3.sqrt_price_to_tick =
      .ok V3.MIN_TICK ∧
    (V3.get_sqrt_ratio_at_tick 0).bind V3.sqrt_price_to_tick = .ok 0 ∧
    (V3.get_sqrt_ratio_at_tick V3.MAX_TICK).bind V3.sqrt_price_to_tick =
      .ok V3.MAX_TICK :=
  ⟨rfl, rfl, rfl, rfl, rfl, rfl, rfl, rfl⟩

/-- Witness for C10 at `victim_amount = 12345` (below the `10^15` floor). -/
theorem v3_brents_minimum_floor_witness :
    (12345 : Nat) ≤ 10 ^ 15 ∧
    ∃ e, V3.brents_method_v3_sandwich_optimization 12345 0 0 0 0 0 = .error e :=
  ⟨by norm_num, v3_brents_minimum_floor 12345 0 0 0 0 0 (by norm_num)⟩

/-- Witness for C5 at the concrete swap of the claim. -/
theorem v2_post_swap_state_conservation_witness :
    V2.calculate_v2_post_swap_state 1000000 100000000 50000000 30 =
      .ok (101000000, 49506421, 493579) ∧
    (493579 : Nat) < 50000000 ∧ (101000000 : Nat) = 100000000 + 1000000 ∧
    (49506421 : Nat) = 50000000 - 493579 :=
  ⟨rfl, v2_post_swap_state_conservation.1 1000000 100000000 50000000 30
    101000000 49506421 493579 (by omega) (by omega) (by omega) (by omega) rfl⟩

end Sidecar
